import Mathlib

/-!
Verification of the DGA (dissolved-gas analysis) diagnostic core.

Shallow embedding of the diagnostic reasoning engine of the `gestor-dga`
repository: gas readings, the nine-variant fault taxonomy, the ratio and
percentage utilities, the six normative classifiers, the majority-vote
consensus service, and the pre-fit checks and fold adaptation of the
statistical model trainer and evaluator.

Python floats are modelled as rationals (`ℚ`); the float arithmetic used
by the code (division, comparison, `round`) is exact on the inputs the
claims quantify over.  Python's `round(x, n)` rounds half to even; it is
modelled by `pyRound` below.  Dictionaries keyed by fault name are
modelled as total functions `FaultType → ℕ` (absent keys count 0).
-/

namespace Dga

/-- Fault taxonomy, from `src/dga/domain/models/fault_type.py`.
Declaration order is the canonical ordinal order (N, PD, D1, D2, T1, T2, T3, DT, S). -/
inductive FaultType where
  | N | PD | D1 | D2 | T1 | T2 | T3 | DT | S
  deriving DecidableEq, Repr, Fintype

/-- Gas reading value object, from `src/dga/domain/models/gas_reading.py`:
nine dissolved-gas concentrations in ppm, modelled as rationals. -/
structure GasReading where
  h2 : ℚ
  ch4 : ℚ
  c2h6 : ℚ
  c2h4 : ℚ
  c2h2 : ℚ
  co : ℚ
  co2 : ℚ
  o2 : ℚ
  n2 : ℚ
  deriving DecidableEq, Repr

/-- Validation performed by `GasReading.__post_init__`: every concentration
is non-negative (construction raises `InvalidGasValueError` otherwise). -/
def GasReading.valid (r : GasReading) : Prop :=
  0 ≤ r.h2 ∧ 0 ≤ r.ch4 ∧ 0 ≤ r.c2h6 ∧ 0 ≤ r.c2h4 ∧ 0 ≤ r.c2h2
    ∧ 0 ≤ r.co ∧ 0 ≤ r.co2 ∧ 0 ≤ r.o2 ∧ 0 ≤ r.n2

instance (r : GasReading) : Decidable r.valid := by
  unfold GasReading.valid; infer_instance

/-- Rounding of an exact rational to the nearest integer, halves to even:
the rounding rule of Python's builtin `round`. -/
def roundHalfEven (x : ℚ) : ℤ :=
  let n := ⌊x⌋
  let f := x - n
  if f < 1/2 then n
  else if 1/2 < f then n + 1
  else if n % 2 = 0 then n else n + 1

/-- Model of Python's `round(x, d)` on exact values. -/
def pyRound (d : ℕ) (x : ℚ) : ℚ :=
  (roundHalfEven (x * 10 ^ d) : ℚ) / 10 ^ d

/-- `safe_ratio` from
`src/dga/application/services/normative_methods/gas_ratios.py`. -/
def safeRatio (numerator denominator : ℚ) : ℚ :=
  if denominator ≤ 0 then (if 0 < numerator then 999 else 0)
  else numerator / denominator

/-- `ratio_ch4_h2` from `gas_ratios.py`. -/
def ratioCh4H2 (r : GasReading) : ℚ := safeRatio r.ch4 r.h2

/-- `ratio_c2h2_c2h4` from `gas_ratios.py`. -/
def ratioC2h2C2h4 (r : GasReading) : ℚ := safeRatio r.c2h2 r.c2h4

/-- `ratio_c2h4_c2h6` from `gas_ratios.py`. -/
def ratioC2h4C2h6 (r : GasReading) : ℚ := safeRatio r.c2h4 r.c2h6

/-- `ratio_c2h6_c2h2` from `gas_ratios.py`. -/
def ratioC2h6C2h2 (r : GasReading) : ℚ := safeRatio r.c2h6 r.c2h2

/-- `ratio_c2h2_ch4` from `gas_ratios.py`. -/
def ratioC2h2Ch4 (r : GasReading) : ℚ := safeRatio r.c2h2 r.ch4

/-- `total_combustible_gases` (TDCG) from `gas_ratios.py`. -/
def totalCombustibleGases (r : GasReading) : ℚ :=
  r.h2 + r.ch4 + r.c2h6 + r.c2h4 + r.c2h2 + r.co

/-- `duval_triangle_percentages` from `gas_ratios.py`. -/
def duvalTrianglePercentages (r : GasReading) : ℚ × ℚ × ℚ :=
  let total := r.ch4 + r.c2h4 + r.c2h2
  if total ≤ 0 then (0, 0, 0)
  else (r.ch4 / total * 100, r.c2h4 / total * 100, r.c2h2 / total * 100)

/-- `duval_pentagon_percentages` from `gas_ratios.py`. -/
def duvalPentagonPercentages (r : GasReading) : ℚ × ℚ × ℚ × ℚ × ℚ :=
  let total := r.h2 + r.ch4 + r.c2h6 + r.c2h4 + r.c2h2
  if total ≤ 0 then (0, 0, 0, 0, 0)
  else (r.h2 / total * 100, r.ch4 / total * 100, r.c2h6 / total * 100,
        r.c2h4 / total * 100, r.c2h2 / total * 100)

/-- Result of one normative classifier, from
`src/dga/domain/models/method_result.py`.  The open `details` map is
projected to the one entry the specification reasons about: the
`"applicable"` flag (`none` when the classifier does not set it). -/
structure MethodResult where
  method_name : String
  fault_type : FaultType
  description : String
  applicable : Option Bool
  deriving DecidableEq, Repr

/-! ### IEEE C57.104-2019 classifier (`normative_methods/ieee_c57_104.py`) -/

/-- `_gas_condition` for one gas given its three thresholds
`(limite_cond2, limite_cond3, limite_cond4)`. -/
def gasCondition (lim1 lim2 lim3 value : ℚ) : ℕ :=
  if value ≤ lim1 then 1
  else if value ≤ lim2 then 2
  else if value ≤ lim3 then 3
  else 4

/-- The seven per-gas conditions of `_GAS_LIMITS` applied to a reading. -/
def ieeeIndividualConditions (r : GasReading) : List ℕ :=
  [gasCondition 100 200 500 r.h2,
   gasCondition 75 125 200 r.ch4,
   gasCondition 65 100 150 r.c2h6,
   gasCondition 50 100 200 r.c2h4,
   gasCondition 2 10 35 r.c2h2,
   gasCondition 350 570 1400 r.co,
   gasCondition 2500 4000 10000 r.co2]

/-- `_tdcg_condition` with limits `(720, 1920, 4630)`. -/
def tdcgCondition (tdcg : ℚ) : ℕ :=
  if tdcg ≤ 720 then 1
  else if tdcg ≤ 1920 then 2
  else if tdcg ≤ 4630 then 3
  else 4

/-- `_CONDITION_LABELS`. -/
def conditionLabel (c : ℕ) : String :=
  match c with
  | 1 => "Condicion 1: Funcionamiento normal"
  | 2 => "Condicion 2: Normal con gases por encima de valores tipicos"
  | 3 => "Condicion 3: Anormal, se requiere investigacion"
  | 4 => "Condicion 4: Peligrosa, se requiere accion inmediata"
  | _ => ""

/-- `_suggest_fault_type` from `ieee_c57_104.py`. -/
def ieeeSuggestFaultType (r : GasReading) : FaultType :=
  let r1 := ratioCh4H2 r
  let r2 := ratioC2h2C2h4 r
  let r3 := ratioC2h4C2h6 r
  if 10 < r.c2h2 then (if 2 < r2 then .D1 else .D2)
  else if 4 < r3 then .T3
  else if 1 < r3 then .T2
  else if 1 < r1 ∧ r3 ≤ 1 then .T1
  else if 100 < r.h2 ∧ r1 < 1/10 then .PD
  else .S

/-- `ieee_c57_104.diagnose`. -/
def ieeeDiagnose (r : GasReading) : MethodResult :=
  let overall := max ((ieeeIndividualConditions r).foldr max 0)
    (tdcgCondition (totalCombustibleGases r))
  { method_name := "IEEE C57.104-2019"
    fault_type := if overall ≤ 2 then .N else ieeeSuggestFaultType r
    description := conditionLabel overall
    applicable := none }

/-! ### IEC 60599:2022 classifier (`normative_methods/iec_60599.py`) -/

/-- `_code_r1` of `iec_60599.py` (shared with `_code_r2`, same cut-points). -/
def iecCodeR1 (ratio : ℚ) : ℕ :=
  if ratio < 1/10 then 0 else if ratio ≤ 1 then 1 else 2

/-- `_code_r5` of `iec_60599.py`. -/
def iecCodeR5 (ratio : ℚ) : ℕ :=
  if ratio < 1 then 0 else if ratio ≤ 3 then 1 else 2

/-- `_DIAGNOSIS_TABLE` of `iec_60599.py`; `none` for unmapped triples. -/
def iecTable (c1 c2 c5 : ℕ) : Option (FaultType × String) :=
  match c1, c2, c5 with
  | 0, 0, 0 => some (.PD, "Descargas parciales de baja energia")
  | 1, 0, 0 => some (.D1, "Descargas de baja energia (chispas)")
  | 2, 0, 0 => some (.D1, "Descargas de baja energia con C2H2 elevado")
  | 1, 0, 1 => some (.D2, "Descargas de alta energia")
  | 1, 0, 2 => some (.D2, "Descargas de alta energia severas")
  | 2, 0, 1 => some (.D2, "Descargas de alta energia con arco")
  | 2, 0, 2 => some (.D2, "Descargas de alta energia con arco severo")
  | 0, 1, 0 => some (.T1, "Falla termica baja temperatura (< 300 °C)")
  | 0, 2, 0 => some (.T1, "Falla termica baja temperatura (< 300 °C)")
  | 0, 2, 1 => some (.T2, "Falla termica media temperatura (300-700 °C)")
  | 0, 1, 1 => some (.T2, "Falla termica media temperatura (300-700 °C)")
  | 0, 2, 2 => some (.T3, "Falla termica alta temperatura (> 700 °C)")
  | 0, 1, 2 => some (.T3, "Falla termica alta temperatura (> 700 °C)")
  | 1, 1, 0 => some (.DT, "Mezcla de descarga y falla termica")
  | 2, 1, 0 => some (.DT, "Mezcla de descarga y falla termica")
  | 1, 2, 0 => some (.DT, "Mezcla de descarga y falla termica")
  | 2, 2, 0 => some (.DT, "Mezcla de descarga y falla termica")
  | 1, 1, 1 => some (.DT, "Mezcla de descarga y falla termica")
  | 2, 1, 1 => some (.DT, "Mezcla de descarga y falla termica")
  | 1, 2, 1 => some (.DT, "Mezcla de descarga y falla termica")
  | 2, 2, 1 => some (.DT, "Mezcla de descarga y falla termica")
  | 1, 1, 2 => some (.DT, "Mezcla de descarga y falla termica")
  | 2, 1, 2 => some (.DT, "Mezcla de descarga y falla termica")
  | 1, 2, 2 => some (.DT, "Mezcla de descarga y falla termica")
  | 2, 2, 2 => some (.DT, "Mezcla de descarga y falla termica")
  | _, _, _ => none

/-- `iec_60599.diagnose`. -/
def iecDiagnose (r : GasReading) : MethodResult :=
  let c1 := iecCodeR1 (ratioC2h2C2h4 r)
  let c2 := iecCodeR1 (ratioCh4H2 r)
  let c5 := iecCodeR5 (ratioC2h4C2h6 r)
  let fd := match iecTable c1 c2 c5 with
    | some p => p
    | none => (.N, "No se identifica un patron de falla definido")
  { method_name := "IEC 60599:2022"
    fault_type := fd.1
    description := fd.2
    applicable := none }

/-! ### Rogers classifier (`normative_methods/rogers.py`) -/

/-- `_code_r1` of `rogers.py` (includes the discrete code 5 for very low ratios). -/
def rogersCodeR1 (ratio : ℚ) : ℕ :=
  if ratio < 1/10 then 5
  else if ratio ≤ 1 then 0
  else if ratio ≤ 3 then 1
  else 2

/-- `_code_r2` of `rogers.py`. -/
def rogersCodeR2 (ratio : ℚ) : ℕ :=
  if ratio < 1/10 then 0 else if ratio ≤ 3 then 1 else 2

/-- `_code_r5` of `rogers.py`. -/
def rogersCodeR5 (ratio : ℚ) : ℕ :=
  if ratio < 1 then 0 else if ratio ≤ 3 then 1 else 2

/-- `_DIAGNOSIS_TABLE` of `rogers.py`; `none` for unmapped triples. -/
def rogersTable (c1 c2 c5 : ℕ) : Option (FaultType × String) :=
  match c1, c2, c5 with
  | 0, 0, 0 => some (.N, "Deterioro normal por envejecimiento")
  | 5, 0, 0 => some (.PD, "Descargas parciales de baja energia")
  | 0, 1, 0 => some (.D1, "Descargas de baja energia")
  | 1, 1, 0 => some (.D1, "Descargas de baja energia")
  | 0, 2, 0 => some (.D2, "Descargas de alta energia (arco)")
  | 0, 1, 1 => some (.D2, "Descargas de alta energia")
  | 0, 1, 2 => some (.D2, "Descargas de alta energia con calentamiento")
  | 0, 2, 1 => some (.D2, "Descargas de alta energia")
  | 0, 2, 2 => some (.D2, "Descargas de alta energia")
  | 1, 0, 0 => some (.T1, "Falla termica menor a 300 °C")
  | 2, 0, 0 => some (.T1, "Falla termica menor a 300 °C (CH4 alto)")
  | 2, 0, 1 => some (.T2, "Falla termica entre 300 y 700 °C")
  | 1, 0, 1 => some (.T2, "Falla termica entre 300 y 700 °C")
  | 2, 0, 2 => some (.T3, "Falla termica mayor a 700 °C")
  | 1, 0, 2 => some (.T3, "Falla termica mayor a 700 °C")
  | _, _, _ => none

/-- `rogers.diagnose`. -/
def rogersDiagnose (r : GasReading) : MethodResult :=
  let c1 := rogersCodeR1 (ratioCh4H2 r)
  let c2 := rogersCodeR2 (ratioC2h2C2h4 r)
  let c5 := rogersCodeR5 (ratioC2h4C2h6 r)
  let fd := match rogersTable c1 c2 c5 with
    | some p => p
    | none => (.N, "Combinacion de codigos sin diagnostico definido")
  { method_name := "Rogers"
    fault_type := fd.1
    description := fd.2
    applicable := none }

/-! ### Dornenburg classifier (`normative_methods/dornenburg.py`) -/

/-- `_exceeds_l1`: at least one key gas exceeds its L1 significance limit. -/
def dornenburgExceedsL1 (r : GasReading) : Prop :=
  100 < r.h2 ∨ 120 < r.ch4 ∨ 1 < r.c2h2 ∨ 50 < r.c2h4 ∨ 65 < r.c2h6 ∨ 350 < r.co

instance (r : GasReading) : Decidable (dornenburgExceedsL1 r) := by
  unfold dornenburgExceedsL1; infer_instance

/-- `_classify` from `dornenburg.py`. -/
def dornenburgClassify (r1 r2 r3 r4 : ℚ) : FaultType × String :=
  if 1 < r1 ∧ r2 < 1/10 then
    (if 2/5 < r4 then (.T2, "Falla termica (descomposicion de aceite)")
     else (.T1, "Falla termica de baja temperatura"))
  else if r1 < 1/10 ∧ r2 < 1/10 then (.PD, "Descargas parciales (efecto corona)")
  else if 1/10 < r2 ∧ 3/10 < r3 then (.D2, "Descargas de alta energia (arco electrico)")
  else if 1/10 < r2 then (.D1, "Descargas de baja energia")
  else if 1 < r1 then (.T1, "Posible falla termica")
  else (.N, "Sin patron de falla definido por Dornenburg")

/-- `dornenburg.diagnose`. -/
def dornenburgDiagnose (r : GasReading) : MethodResult :=
  if dornenburgExceedsL1 r then
    let fd := dornenburgClassify (ratioCh4H2 r) (ratioC2h2C2h4 r)
      (ratioC2h2Ch4 r) (ratioC2h6C2h2 r)
    { method_name := "Dornenburg"
      fault_type := fd.1
      description := fd.2
      applicable := some true }
  else
    { method_name := "Dornenburg"
      fault_type := .N
      description := "Gases por debajo de limites L1; metodo no aplicable"
      applicable := some false }

/-! ### Duval Triangle 1 classifier (`normative_methods/duval_triangle.py`) -/

/-- `_classify_zone` from `duval_triangle.py`. -/
def duvalTriangleClassifyZone (pct_ch4 pct_c2h4 pct_c2h2 : ℚ) : FaultType × String :=
  if 13 < pct_c2h2 then
    (if pct_c2h4 < 23 then (.D1, "Descargas de baja energia")
     else if 29 < pct_c2h2 then (.D2, "Descargas de alta energia")
     else (.D2, "Descargas de alta energia"))
  else if pct_c2h2 ≤ 4 then
    (if pct_c2h4 < 20 then
      (if 98 < pct_ch4 then (.PD, "Descargas parciales")
       else (.T1, "Falla termica < 300 °C"))
     else if pct_c2h4 < 50 then (.T2, "Falla termica 300-700 °C")
     else (.T3, "Falla termica > 700 °C"))
  else if pct_c2h4 < 23 then (.D1, "Descargas de baja energia")
  else (.DT, "Mezcla de falla termica y electrica")

/-- `duval_triangle.diagnose`. -/
def duvalTriangleDiagnose (r : GasReading) : MethodResult :=
  let p := duvalTrianglePercentages r
  if p.1 = 0 ∧ p.2.1 = 0 ∧ p.2.2 = 0 then
    { method_name := "Triangulo de Duval 1"
      fault_type := .N
      description := "Gases insuficientes para aplicar el triangulo"
      applicable := some false }
  else
    let fd := duvalTriangleClassifyZone p.1 p.2.1 p.2.2
    { method_name := "Triangulo de Duval 1"
      fault_type := fd.1
      description := fd.2
      applicable := some true }

/-! ### Duval Pentagon 1 classifier (`normative_methods/duval_pentagon.py`) -/

/-- `_classify_zone` from `duval_pentagon.py`. -/
def duvalPentagonClassifyZone (pct_h2 pct_ch4 pct_c2h6 pct_c2h4 pct_c2h2 : ℚ) :
    FaultType × String :=
  if 60 < pct_h2 ∧ pct_c2h2 < 5 ∧ pct_c2h4 < 10 then
    (.PD, "Descargas parciales (predomina H2)")
  else if 15 < pct_c2h2 then
    (if 25 < pct_c2h4 then (.D2, "Descargas de alta energia")
     else (.D1, "Descargas de baja energia"))
  else if 5 < pct_c2h2 then
    (if 30 < pct_c2h4 then (.D2, "Descargas de alta energia (arco)")
     else if 30 < pct_h2 then (.D1, "Descargas de baja energia")
     else (.DT, "Mezcla de descarga y falla termica"))
  else if 50 < pct_c2h4 then (.T3, "Falla termica > 700 °C")
  else if 25 < pct_c2h4 then
    (if 20 < pct_c2h6 then (.T2, "Falla termica 300-700 °C")
     else (.T3, "Falla termica > 700 °C"))
  else if 10 < pct_c2h4 then
    (if 30 < pct_c2h6 then (.S, "Sobrecalentamiento")
     else (.T2, "Falla termica 300-700 °C"))
  else if 40 < pct_ch4 then
    (if 20 < pct_c2h6 then (.S, "Sobrecalentamiento (aceite/celulosa)")
     else (.T1, "Falla termica < 300 °C"))
  else if 40 < pct_c2h6 then (.S, "Sobrecalentamiento")
  else if 40 < pct_h2 then (.PD, "Descargas parciales")
  else (.T1, "Falla termica de baja temperatura")

/-- `duval_pentagon.diagnose`.  Note that the source's not-applicable
check tests only the first three of the five percentages. -/
def duvalPentagonDiagnose (r : GasReading) : MethodResult :=
  let p := duvalPentagonPercentages r
  if p.1 = 0 ∧ p.2.1 = 0 ∧ p.2.2.1 = 0 then
    { method_name := "Pentagono de Duval 1"
      fault_type := .N
      description := "Gases insuficientes para aplicar el pentagono"
      applicable := some false }
  else
    let fd := duvalPentagonClassifyZone p.1 p.2.1 p.2.2.1 p.2.2.2.1 p.2.2.2.2
    { method_name := "Pentagono de Duval 1"
      fault_type := fd.1
      description := fd.2
      applicable := some true }

/-! ### Consensus service (`application/services/normative_diagnosis_service.py`) -/

/-- The `_METHODS` registry, in the fixed invocation order
IEEE, IEC, Rogers, Dornenburg, Duval Triangle, Duval Pentagon. -/
def methodList : List (GasReading → MethodResult) :=
  [ieeeDiagnose, iecDiagnose, rogersDiagnose,
   dornenburgDiagnose, duvalTriangleDiagnose, duvalPentagonDiagnose]

/-- `NormativeDiagnosisResult`.  The Python vote dict keyed by fault name
is modelled as a total function (faults without votes count 0). -/
structure NormativeDiagnosisResult where
  results : List MethodResult
  consensus_fault : FaultType
  vote_counts : FaultType → ℕ
  agreement_pct : ℚ

/-- The highest vote count in a list of votes (the count of the winner of
`Counter.most_common(1)`). -/
def maxVoteCount (votes : List FaultType) : ℕ :=
  (votes.map (fun v => votes.count v)).foldr max 0

/-- The fault returned by `Counter(votes).most_common(1)[0]`: `Counter`
iterates keys in first-insertion order and `most_common` sorts stably by
count, so the winner is the first vote whose count is maximal. -/
def mostCommonFault (votes : List FaultType) : Option FaultType :=
  votes.find? (fun v => votes.count v == maxVoteCount votes)

/-- `_compute_consensus` from `normative_diagnosis_service.py`, returning
`(winning fault, vote counts, agreement percentage)`.  The `.getD .N`
covers the empty-votes case on which the Python indexing
`most_common(1)[0]` would fail (never reached from `diagnose_all`). -/
def computeConsensus (results : List MethodResult) :
    FaultType × (FaultType → ℕ) × ℚ :=
  let votes := results.map (·.fault_type)
  let total := votes.length
  let winner := (mostCommonFault votes).getD .N
  let winnerCount := votes.count winner
  let agreement : ℚ :=
    if 0 < total then (winnerCount : ℚ) / (total : ℚ) * 100 else 0
  (winner, fun f => votes.count f, pyRound 1 agreement)

/-- `NormativeDiagnosisService.diagnose_all`. -/
def diagnoseAll (r : GasReading) : NormativeDiagnosisResult :=
  let results := methodList.map (fun m => m r)
  let c := computeConsensus results
  { results := results
    consensus_fault := c.1
    vote_counts := c.2.1
    agreement_pct := c.2.2 }

/-- Model of Python's `str.lower` on the ASCII method names: the
character-wise lowercase map.  This is the mapping `String.toLower`
performs (`String.map Char.toLower`), stated on the character list. -/
def pyLower (s : String) : String := ⟨s.data.map Char.toLower⟩

/-- `NormativeDiagnosisService.diagnose_single`: runs the registered
methods in order and returns the first whose result's name matches the
requested name case-insensitively, `none` otherwise. -/
def diagnoseSingle (r : GasReading) (name : String) : Option MethodResult :=
  (methodList.map (fun m => m r)).find?
    (fun res => pyLower res.method_name == pyLower name)

/-- The six classifier votes of a reading, in the invocation order of
`_METHODS` (IEEE, IEC, Rogers, Dornenburg, Triangle, Pentagon). -/
def classifierVotes (r : GasReading) : List FaultType :=
  [(ieeeDiagnose r).fault_type, (iecDiagnose r).fault_type,
   (rogersDiagnose r).fault_type, (dornenburgDiagnose r).fault_type,
   (duvalTriangleDiagnose r).fault_type, (duvalPentagonDiagnose r).fault_type]

/-! ### Model trainer (`application/services/ai_engine/model_trainer.py`)

The scikit-learn pipelines, `cross_val_score` and `np.std` are external
library computations: `trainAll` is parametrized by a score oracle
(`cvScore effectiveFolds pipelineName` = the per-fold accuracies
`cross_val_score` would return) and by `npStd` (the float standard
deviation).  The fitted `Pipeline` objects are opaque external state and
carry no information used by the claims, so the `pipeline` field is
omitted from `TrainedModel`. -/

/-- `FAULT_LABELS` from `ai_engine/data_preparation.py`:
fault names in declaration order. -/
def FAULT_LABELS : List String :=
  ["N", "PD", "D1", "D2", "T1", "T2", "T3", "DT", "S"]

/-- `FEATURE_NAMES` from `ai_engine/data_preparation.py`:
the canonical gas field order. -/
def FEATURE_NAMES : List String :=
  ["h2", "ch4", "c2h6", "c2h4", "c2h2", "co", "co2", "o2", "n2"]

/-- `TrainedModel` (without the opaque sklearn `pipeline` object). -/
structure TrainedModel where
  name : String
  cv_accuracy : ℚ
  cv_std : ℚ
  cv_scores : List ℚ
  deriving DecidableEq, Repr

/-- `TrainingResult` (without the opaque pipeline objects). -/
structure TrainingResult where
  models : List TrainedModel
  best_model : TrainedModel
  feature_names : List String
  label_names : List String
  n_samples : ℕ
  n_classes : ℕ
  deriving DecidableEq, Repr

/-- The two `ValueError`s `train_all` can raise before fitting. -/
inductive TrainError where
  | sizingError (needed got : ℕ)
  | classCountError (found : ℕ)
  deriving DecidableEq, Repr

/-- The names of the four candidate pipelines built by `_build_pipelines`,
in construction order. -/
def pipelineNames : List String := ["Random Forest", "SVM", "KNN", "MLP"]

/-- `np.mean` on exact values. -/
def npMean (xs : List ℚ) : ℚ := xs.sum / (xs.length : ℚ)

/-- `min(np.bincount(y)[unique_classes])`: the sample count of the
smallest class present in `y` (junk 0 on an empty `y`, where the Python
`min` of an empty sequence would raise). -/
def minClassCount (y : List ℕ) : ℕ :=
  ((y.dedup).map (fun c => y.count c)).min?.getD 0

/-- The fold adaptation of `ModelTrainer.train_all` (lines 189-193):
`effective_folds = min(n_folds, min_class_count)`, floored at 2. -/
def trainerEffectiveFolds (nFolds : ℕ) (y : List ℕ) : ℕ :=
  let e := min nFolds (minClassCount y)
  if e < 2 then 2 else e

/-- The fold adaptation of `ModelEvaluator.evaluate` (lines 110-114),
translated separately from its own source. -/
def evaluatorEffectiveFolds (nFolds : ℕ) (y : List ℕ) : ℕ :=
  let e := min nFolds (minClassCount y)
  if e < 2 then 2 else e

/-- Descending order on mean CV accuracy, the sort key of
`trained.sort(key=lambda m: m.cv_accuracy, reverse=True)`. -/
def byAccDesc (a b : TrainedModel) : Prop := b.cv_accuracy ≤ a.cv_accuracy

instance : DecidableRel byAccDesc := fun a b =>
  inferInstanceAs (Decidable (b.cv_accuracy ≤ a.cv_accuracy))

instance : IsTotal TrainedModel byAccDesc :=
  ⟨fun a b => le_total b.cv_accuracy a.cv_accuracy⟩

instance : IsTrans TrainedModel byAccDesc :=
  ⟨fun _ _ _ hab hbc => le_trans hbc hab⟩

/-- Fallback value for list head extraction (the Python `trained[0]`
would raise on an empty list; the list always has four entries). -/
def dummyModel : TrainedModel :=
  { name := "", cv_accuracy := 0, cv_std := 0, cv_scores := [] }

/-- `ModelTrainer.train_all`.  `nSamples` is `X.shape[0]`; `y` is the
label vector; Python's stable `list.sort` with `reverse=True` is modelled
by a stable insertion sort under `byAccDesc` (stable sorts under the same
total preorder produce identical outputs). -/
def trainAll (cvScore : ℕ → String → List ℚ) (npStd : List ℚ → ℚ)
    (nFolds nSamples : ℕ) (y : List ℕ) : Except TrainError TrainingResult :=
  let nClasses := y.dedup.length
  if nSamples < nFolds then
    .error (.sizingError nFolds nSamples)
  else if nClasses < 2 then
    .error (.classCountError nClasses)
  else
    let eff := trainerEffectiveFolds nFolds y
    let trained := pipelineNames.map (fun pname =>
      let scores := cvScore eff pname
      { name := pname
        cv_accuracy := pyRound 4 (npMean scores)
        cv_std := pyRound 4 (npStd scores)
        cv_scores := scores.map (pyRound 4) : TrainedModel })
    let sorted := List.insertionSort byAccDesc trained
    .ok { models := sorted
          best_model := sorted.headD dummyModel
          feature_names := FEATURE_NAMES
          label_names := FAULT_LABELS
          n_samples := nSamples
          n_classes := nClasses }

/-! ### Concrete inputs used by witnesses and counterexamples -/

/-- The all-zero gas reading. -/
def zeroReading : GasReading := ⟨0, 0, 0, 0, 0, 0, 0, 0, 0⟩

/-- A reading whose only non-zero gas is C2H4 (ethylene): its pentagon
percentages are `(0, 0, 0, 100, 0)`. -/
def onlyEthylene : GasReading := ⟨0, 0, 0, 10, 0, 0, 0, 0, 0⟩

/-- A valid reading with non-zero triangle and pentagon gas sums. -/
def sampleReading : GasReading := ⟨20, 30, 10, 30, 40, 5, 5, 5, 5⟩

/-- Score oracle used by the training witness: every candidate scores
`[1, 0]` over the two folds. -/
def wScore : ℕ → String → List ℚ := fun _ _ => [1, 0]

/-- Standard-deviation oracle used by the training witness. -/
def wStd : List ℚ → ℚ := fun _ => 0

/-- The training result of the witness run (two samples, two classes,
two folds). -/
def wRes : TrainingResult :=
  match trainAll wScore wStd 2 2 [0, 1] with
  | .ok res => res
  | .error _ => { models := [], best_model := dummyModel,
                  feature_names := [], label_names := [],
                  n_samples := 0, n_classes := 0 }

/-! ## Helper lemmas -/

/-- Summing the per-fault vote counts over the whole taxonomy gives the
number of votes. -/
theorem sum_univ_count (l : List FaultType) :
    (∑ f : FaultType, l.count f) = l.length := by
  induction l with
  | nil => simp
  | cons x l ih =>
    simp only [List.count_cons, beq_iff_eq, List.length_cons]
    rw [Finset.sum_add_distrib, ih]
    have : (∑ f : FaultType, if x = f then 1 else 0) = 1 := by
      rw [Finset.sum_ite_eq]
      simp
    omega

/-- Every member of a list of naturals is bounded by its `foldr max 0`. -/
theorem le_foldr_max (l : List ℕ) (x : ℕ) (hx : x ∈ l) : x ≤ l.foldr max 0 := by
  induction l with
  | nil => cases hx
  | cons a l ih =>
    rcases List.mem_cons.mp hx with h | h
    · subst h; exact le_max_left _ _
    · exact le_trans (ih h) (le_max_right _ _)

/-- `foldr max 0` of a list of naturals is a member unless it is zero. -/
theorem foldr_max_mem (l : List ℕ) : l.foldr max 0 ∈ l ∨ l.foldr max 0 = 0 := by
  induction l with
  | nil => right; rfl
  | cons a l ih =>
    rcases le_or_lt (l.foldr max 0) a with h | h
    · left; simp [max_eq_left h]
    · rcases ih with hm | h0
      · left
        have : max a (l.foldr max 0) = l.foldr max 0 := max_eq_right (le_of_lt h)
        simp only [List.foldr_cons, this]
        exact List.mem_cons_of_mem _ hm
      · omega

/-- No fault receives more votes than `maxVoteCount`. -/
theorem count_le_maxVoteCount (votes : List FaultType) (f : FaultType) :
    votes.count f ≤ maxVoteCount votes := by
  by_cases hf : f ∈ votes
  · exact le_foldr_max _ _ (List.mem_map_of_mem (fun v => votes.count v) hf)
  · rw [List.count_eq_zero_of_not_mem hf]; exact Nat.zero_le _

/-- On a non-empty vote list the maximal count is attained. -/
theorem maxVoteCount_attained (votes : List FaultType) (h : votes ≠ []) :
    ∃ v ∈ votes, votes.count v = maxVoteCount votes := by
  rcases foldr_max_mem (votes.map (fun v => votes.count v)) with hm | h0
  · rcases List.mem_map.mp hm with ⟨v, hv, hc⟩
    exact ⟨v, hv, hc⟩
  · rcases votes with _ | ⟨v, rest⟩
    · exact absurd rfl h
    · refine ⟨v, List.mem_cons_self v rest, le_antisymm (count_le_maxVoteCount _ _) ?_⟩
      have h0' : maxVoteCount (v :: rest) = 0 := h0
      rw [h0']
      exact Nat.zero_le _

/-- On a non-empty vote list `mostCommonFault` succeeds. -/
theorem mostCommonFault_isSome (votes : List FaultType) (h : votes ≠ []) :
    ∃ w, mostCommonFault votes = some w := by
  obtain ⟨v, hv, hc⟩ := maxVoteCount_attained votes h
  have : (votes.find? (fun v => votes.count v == maxVoteCount votes)).isSome := by
    rw [List.find?_isSome]
    exact ⟨v, hv, by simp [hc]⟩
  exact Option.isSome_iff_exists.mp this

/-- The vote list of `diagnose_all` is the six classifier votes in
invocation order. -/
theorem diagnoseAll_votes (r : GasReading) :
    (diagnoseAll r).results.map (·.fault_type) = classifierVotes r := rfl

/-- The consensus fault of `diagnose_all` is `mostCommonFault` of the
classifier votes. -/
theorem diagnoseAll_consensus (r : GasReading) :
    (diagnoseAll r).consensus_fault = (mostCommonFault (classifierVotes r)).getD .N := rfl

/-- The vote-count map of `diagnose_all` counts occurrences in the
classifier votes. -/
theorem diagnoseAll_counts (r : GasReading) (f : FaultType) :
    (diagnoseAll r).vote_counts f = (classifierVotes r).count f := rfl

/-- The consensus fault is one of the six votes and receives the maximal
vote count. -/
theorem diagnoseAll_consensus_spec (r : GasReading) :
    (diagnoseAll r).consensus_fault ∈ classifierVotes r ∧
      (classifierVotes r).count (diagnoseAll r).consensus_fault =
        maxVoteCount (classifierVotes r) := by
  obtain ⟨w, hw⟩ := mostCommonFault_isSome (classifierVotes r) (by simp [classifierVotes])
  have hc : (diagnoseAll r).consensus_fault = w := by
    rw [diagnoseAll_consensus, hw]; rfl
  have hmem := List.mem_of_find?_eq_some hw
  have hp := List.find?_some hw
  rw [beq_iff_eq] at hp
  exact ⟨hc ▸ hmem, by rw [hc]; exact hp⟩

/-- The agreement percentage of `diagnose_all` in terms of the consensus
vote count. -/
theorem diagnoseAll_agreement (r : GasReading) :
    (diagnoseAll r).agreement_pct =
      pyRound 1 (((classifierVotes r).count (diagnoseAll r).consensus_fault : ℚ) / 6 * 100) := by
  have h6 : ((classifierVotes r).length : ℚ) = 6 := by norm_num [classifierVotes]
  show pyRound 1 (if 0 < (classifierVotes r).length then
      (((classifierVotes r).count ((mostCommonFault (classifierVotes r)).getD .N) : ℚ)) /
        ((classifierVotes r).length : ℚ) * 100 else 0) = _
  rw [if_pos (by simp [classifierVotes]), h6]
  rfl

/-! ## Claims -/

/-- Claim C1: `safe_ratio(numerator, denominator)` returns
`numerator/denominator` when the denominator is positive; when the
denominator is `≤ 0` it returns `999.0` if the numerator is positive and
`0.0` otherwise. -/
theorem claim_C1 (n d : ℚ) :
    (0 < d → safeRatio n d = n / d) ∧
    (d ≤ 0 → safeRatio n d = if 0 < n then 999 else 0) := by
  constructor
  · intro h
    rw [safeRatio, if_neg (not_le.mpr h)]
  · intro h
    rw [safeRatio, if_pos h]

/-- Witness for C1: concrete evaluations, including the zero-denominator
sentinel cases. -/
theorem claim_C1_witness :
    safeRatio 5 0 = 999 ∧ safeRatio 0 0 = 0 ∧ safeRatio 7 2 = 7 / 2 := by
  refine ⟨?_, ?_, ?_⟩
  · rw [(claim_C1 5 0).2 le_rfl]; norm_num
  · rw [(claim_C1 0 0).2 le_rfl]; norm_num
  · exact (claim_C1 7 2).1 (by norm_num)

/-- Claim C2: for every gas reading, the consensus vote counts of
`diagnose_all` sum to exactly 6, the agreement percentage equals
(majority vote count / 6) × 100 rounded to one decimal, and the
agreement percentage lies in [0, 100]. -/
theorem claim_C2 (r : GasReading) :
    (∑ f : FaultType, (diagnoseAll r).vote_counts f) = 6 ∧
    (diagnoseAll r).agreement_pct =
      pyRound 1 (((diagnoseAll r).vote_counts (diagnoseAll r).consensus_fault : ℚ) / 6 * 100) ∧
    0 ≤ (diagnoseAll r).agreement_pct ∧ (diagnoseAll r).agreement_pct ≤ 100 := by
  have hsum : (∑ f : FaultType, (diagnoseAll r).vote_counts f) = 6 := by
    have : (∑ f : FaultType, (diagnoseAll r).vote_counts f) =
        ∑ f : FaultType, (classifierVotes r).count f := rfl
    rw [this, sum_univ_count]
    rfl
  have hagr := diagnoseAll_agreement r
  have hk6 : (classifierVotes r).count (diagnoseAll r).consensus_fault ≤ 6 := by
    have := List.count_le_length (diagnoseAll r).consensus_fault (classifierVotes r)
    simpa [classifierVotes] using this
  refine ⟨hsum, hagr, ?_⟩
  rw [hagr]
  generalize (classifierVotes r).count (diagnoseAll r).consensus_fault = k at hk6
  interval_cases k <;> constructor <;> norm_num [pyRound, roundHalfEven]

/-- Claim C3: the consensus fault of `diagnose_all` has the highest vote
count among the six classifier votes, and with ties the winner is the
vote produced first in the fixed invocation order IEEE, IEC, Rogers,
Dornenburg, Duval Triangle, Duval Pentagon (first-seen-wins: the
consensus occurs at a position strictly before which every vote has a
smaller count). -/
theorem claim_C3 (r : GasReading) :
    ((diagnoseAll r).results.map (·.fault_type) = classifierVotes r) ∧
    (∀ f : FaultType, (classifierVotes r).count f ≤
        (classifierVotes r).count (diagnoseAll r).consensus_fault) ∧
    (∃ i : Fin (classifierVotes r).length,
      (classifierVotes r).get i = (diagnoseAll r).consensus_fault ∧
      ∀ j : Fin (classifierVotes r).length, j.1 < i.1 →
        (classifierVotes r).count ((classifierVotes r).get j) <
          (classifierVotes r).count (diagnoseAll r).consensus_fault) := by
  obtain ⟨w, hw⟩ := mostCommonFault_isSome (classifierVotes r) (by simp [classifierVotes])
  have hc : (diagnoseAll r).consensus_fault = w := by
    rw [diagnoseAll_consensus, hw]; rfl
  have hcnt : (classifierVotes r).count w = maxVoteCount (classifierVotes r) := by
    have := List.find?_some hw
    rwa [beq_iff_eq] at this
  obtain ⟨hp, i, hi, hgi, hfirst⟩ := List.find?_eq_some_iff_getElem.mp hw
  refine ⟨rfl, ?_, ?_⟩
  · intro f
    rw [hc, hcnt]
    exact count_le_maxVoteCount _ _
  · refine ⟨⟨i, hi⟩, ?_, ?_⟩
    · rw [hc]
      simpa using hgi
    · intro j hj
      have hne := hfirst j.1 hj
      simp only [Bool.not_eq_eq_eq_not, Bool.not_true, beq_eq_false_iff_ne] at hne
      have hle : (classifierVotes r).count ((classifierVotes r).get j) ≤
          maxVoteCount (classifierVotes r) := count_le_maxVoteCount _ _
      rw [hc, hcnt]
      have : (classifierVotes r).count ((classifierVotes r).get j) ≠
          maxVoteCount (classifierVotes r) := by
        simpa using hne
      omega

/-- Witness for C3 at the all-zero reading: no vote outnumbers the
consensus vote of fault N. -/
theorem claim_C3_witness :
    (classifierVotes zeroReading).count FaultType.PD ≤
      (classifierVotes zeroReading).count (diagnoseAll zeroReading).consensus_fault :=
  (claim_C3 zeroReading).2.1 FaultType.PD

/-- Claim C10: the agreement percentage of `diagnose_all` is always one
of the six values 16.7, 33.3, 50.0, 66.7, 83.3, 100.0, and in particular
is never 0, because the majority fault always receives at least one of
the six votes. -/
theorem claim_C10 (r : GasReading) :
    (diagnoseAll r).agreement_pct ∈
      ([167/10, 333/10, 50, 667/10, 833/10, 100] : List ℚ) ∧
    (diagnoseAll r).agreement_pct ≠ 0 := by
  obtain ⟨hmem, -⟩ := diagnoseAll_consensus_spec r
  have hk1 : 1 ≤ (classifierVotes r).count (diagnoseAll r).consensus_fault :=
    List.count_pos_iff.mpr hmem
  have hk6 : (classifierVotes r).count (diagnoseAll r).consensus_fault ≤ 6 := by
    have := List.count_le_length (diagnoseAll r).consensus_fault (classifierVotes r)
    simpa [classifierVotes] using this
  rw [diagnoseAll_agreement r]
  generalize (classifierVotes r).count (diagnoseAll r).consensus_fault = k at hk1 hk6
  interval_cases k <;> constructor <;> norm_num [pyRound, roundHalfEven]

/-- The triangle zone classifier only returns the seven triangle zone
faults. -/
theorem triangleZone_mem (a b c : ℚ) :
    (duvalTriangleClassifyZone a b c).1 ∈
      ([.PD, .D1, .D2, .T1, .T2, .T3, .DT] : List FaultType) := by
  unfold duvalTriangleClassifyZone
  split_ifs <;> simp

/-- The pentagon zone classifier only returns zone faults (never N). -/
theorem pentagonZone_mem (a b c d e : ℚ) :
    (duvalPentagonClassifyZone a b c d e).1 ∈
      ([.PD, .D1, .D2, .T1, .T2, .T3, .DT, .S] : List FaultType) := by
  unfold duvalPentagonClassifyZone
  split_ifs <;> simp

/-- Counterexample for C4: a reading whose only non-zero gas is C2H4 has
pentagon percentages `(0, 0, 0, 100, 0)` — not all five zero — yet the
pentagon classifier returns N flagged not applicable, because the source
checks only the first three of the five percentages. -/
theorem claim_C4_counterexample :
    duvalPentagonPercentages onlyEthylene ≠ (0, 0, 0, 0, 0) ∧
    (duvalPentagonDiagnose onlyEthylene).fault_type = FaultType.N ∧
    (duvalPentagonDiagnose onlyEthylene).applicable = some false := by
  have hp : duvalPentagonPercentages onlyEthylene = (0, 0, 0, 100, 0) := by
    norm_num [duvalPentagonPercentages, onlyEthylene]
  have hd : duvalPentagonDiagnose onlyEthylene =
      { method_name := "Pentagono de Duval 1"
        fault_type := .N
        description := "Gases insuficientes para aplicar el pentagono"
        applicable := some false } := by
    simp only [duvalPentagonDiagnose, hp]
    norm_num
  refine ⟨?_, ?_, ?_⟩
  · rw [hp]
    simp [Prod.ext_iff]
  · rw [hd]
  · rw [hd]

/-- Claim C4 (amended): the Duval Triangle classifier returns fault N
flagged not applicable exactly when its three percentages are all zero
and otherwise one of the seven triangle zone faults with
applicable = true; the Duval Pentagon classifier returns N flagged not
applicable exactly when its %H2, %CH4 and %C2H6 percentages are all zero
(the source checks only these three of its five percentages), and
otherwise a pentagon zone fault with applicable = true. -/
theorem claim_C4_amended (r : GasReading) :
    ((duvalTrianglePercentages r).1 = 0 ∧ (duvalTrianglePercentages r).2.1 = 0 ∧
        (duvalTrianglePercentages r).2.2 = 0 →
      (duvalTriangleDiagnose r).fault_type = FaultType.N ∧
        (duvalTriangleDiagnose r).applicable = some false) ∧
    (¬((duvalTrianglePercentages r).1 = 0 ∧ (duvalTrianglePercentages r).2.1 = 0 ∧
        (duvalTrianglePercentages r).2.2 = 0) →
      (duvalTriangleDiagnose r).applicable = some true ∧
        (duvalTriangleDiagnose r).fault_type ∈
          ([.PD, .D1, .D2, .T1, .T2, .T3, .DT] : List FaultType)) ∧
    ((duvalPentagonPercentages r).1 = 0 ∧ (duvalPentagonPercentages r).2.1 = 0 ∧
        (duvalPentagonPercentages r).2.2.1 = 0 →
      (duvalPentagonDiagnose r).fault_type = FaultType.N ∧
        (duvalPentagonDiagnose r).applicable = some false) ∧
    (¬((duvalPentagonPercentages r).1 = 0 ∧ (duvalPentagonPercentages r).2.1 = 0 ∧
        (duvalPentagonPercentages r).2.2.1 = 0) →
      (duvalPentagonDiagnose r).applicable = some true ∧
        (duvalPentagonDiagnose r).fault_type ∈
          ([.PD, .D1, .D2, .T1, .T2, .T3, .DT, .S] : List FaultType)) := by
  refine ⟨?_, ?_, ?_, ?_⟩ <;> intro h
  · simp [duvalTriangleDiagnose, if_pos h]
  · refine ⟨?_, ?_⟩
    · simp [duvalTriangleDiagnose, if_neg h]
    · simpa [duvalTriangleDiagnose, if_neg h] using triangleZone_mem _ _ _
  · simp [duvalPentagonDiagnose, if_pos h]
  · refine ⟨?_, ?_⟩
    · simp [duvalPentagonDiagnose, if_neg h]
    · simpa [duvalPentagonDiagnose, if_neg h] using pentagonZone_mem _ _ _ _ _

/-- Witness for C4 (amended): the all-zero reading is flagged not
applicable with fault N by both Duval classifiers. -/
theorem claim_C4_witness :
    (duvalTriangleDiagnose zeroReading).fault_type = FaultType.N ∧
      (duvalTriangleDiagnose zeroReading).applicable = some false ∧
      (duvalPentagonDiagnose zeroReading).fault_type = FaultType.N ∧
      (duvalPentagonDiagnose zeroReading).applicable = some false := by
  obtain ⟨h1, h2⟩ := (claim_C4_amended zeroReading).1
    (by norm_num [duvalTrianglePercentages, zeroReading])
  obtain ⟨h3, h4⟩ := (claim_C4_amended zeroReading).2.2.1
    (by norm_num [duvalPentagonPercentages, zeroReading])
  exact ⟨h1, h2, h3, h4⟩

/-- Claim C8: the ternary percentage function returns three values
summing to 100 (within 0.1) whenever CH4 + C2H4 + C2H2 is non-zero, and
(0, 0, 0) when that sum is zero; the pentagon percentage function
returns five values summing to 100 (within 0.1) whenever
H2 + CH4 + C2H6 + C2H4 + C2H2 is non-zero, and all zeros when that sum
is zero. -/
theorem claim_C8 (r : GasReading) (hv : r.valid) :
    (r.ch4 + r.c2h4 + r.c2h2 ≠ 0 →
      |(duvalTrianglePercentages r).1 + (duvalTrianglePercentages r).2.1 +
          (duvalTrianglePercentages r).2.2 - 100| ≤ 1/10) ∧
    (r.ch4 + r.c2h4 + r.c2h2 = 0 → duvalTrianglePercentages r = (0, 0, 0)) ∧
    (r.h2 + r.ch4 + r.c2h6 + r.c2h4 + r.c2h2 ≠ 0 →
      |(duvalPentagonPercentages r).1 + (duvalPentagonPercentages r).2.1 +
          (duvalPentagonPercentages r).2.2.1 + (duvalPentagonPercentages r).2.2.2.1 +
          (duvalPentagonPercentages r).2.2.2.2 - 100| ≤ 1/10) ∧
    (r.h2 + r.ch4 + r.c2h6 + r.c2h4 + r.c2h2 = 0 →
      duvalPentagonPercentages r = (0, 0, 0, 0, 0)) := by
  obtain ⟨h1, h2, h3, h4, h5, -⟩ := hv
  refine ⟨?_, ?_, ?_, ?_⟩ <;> intro h
  · have ht : 0 < r.ch4 + r.c2h4 + r.c2h2 :=
      lt_of_le_of_ne (by positivity) (Ne.symm h)
    simp only [duvalTrianglePercentages, if_neg (not_le.mpr ht)]
    have : r.ch4 / (r.ch4 + r.c2h4 + r.c2h2) * 100 +
        r.c2h4 / (r.ch4 + r.c2h4 + r.c2h2) * 100 +
        r.c2h2 / (r.ch4 + r.c2h4 + r.c2h2) * 100 = 100 := by
      field_simp
      ring
    rw [this]
    norm_num
  · simp only [duvalTrianglePercentages, if_pos (le_of_eq h)]
  · have ht : 0 < r.h2 + r.ch4 + r.c2h6 + r.c2h4 + r.c2h2 :=
      lt_of_le_of_ne (by positivity) (Ne.symm h)
    simp only [duvalPentagonPercentages, if_neg (not_le.mpr ht)]
    have : r.h2 / (r.h2 + r.ch4 + r.c2h6 + r.c2h4 + r.c2h2) * 100 +
        r.ch4 / (r.h2 + r.ch4 + r.c2h6 + r.c2h4 + r.c2h2) * 100 +
        r.c2h6 / (r.h2 + r.ch4 + r.c2h6 + r.c2h4 + r.c2h2) * 100 +
        r.c2h4 / (r.h2 + r.ch4 + r.c2h6 + r.c2h4 + r.c2h2) * 100 +
        r.c2h2 / (r.h2 + r.ch4 + r.c2h6 + r.c2h4 + r.c2h2) * 100 = 100 := by
      field_simp
      ring
    rw [this]
    norm_num
  · simp only [duvalPentagonPercentages, if_pos (le_of_eq h)]

/-- Witness for C8: a valid reading with non-zero gas sums has triangle
and pentagon percentages summing to 100 within 0.1. -/
theorem claim_C8_witness :
    |(duvalTrianglePercentages sampleReading).1 +
        (duvalTrianglePercentages sampleReading).2.1 +
        (duvalTrianglePercentages sampleReading).2.2 - 100| ≤ 1/10 ∧
    |(duvalPentagonPercentages sampleReading).1 +
        (duvalPentagonPercentages sampleReading).2.1 +
        (duvalPentagonPercentages sampleReading).2.2.1 +
        (duvalPentagonPercentages sampleReading).2.2.2.1 +
        (duvalPentagonPercentages sampleReading).2.2.2.2 - 100| ≤ 1/10 := by
  have hv : sampleReading.valid := by
    refine ⟨?_, ?_, ?_, ?_, ?_, ?_, ?_, ?_, ?_⟩ <;> norm_num [sampleReading]
  exact ⟨(claim_C8 sampleReading hv).1 (by norm_num [sampleReading]),
    (claim_C8 sampleReading hv).2.2.1 (by norm_num [sampleReading])⟩

/-- Claim C5: `train_all` fails with the sizing error whenever the
sample count is below the requested fold count, and with the class-count
error whenever (the sizing check passes and) fewer than 2 distinct
labels are present; in both cases the result is the same for every score
and standard-deviation oracle, i.e. the error is raised before any
candidate pipeline is cross-validated or fitted and no model state is
produced. -/
theorem claim_C5 (cvScore : ℕ → String → List ℚ) (npStd : List ℚ → ℚ)
    (nFolds nSamples : ℕ) (y : List ℕ) :
    (nSamples < nFolds →
      trainAll cvScore npStd nFolds nSamples y = .error (.sizingError nFolds nSamples)) ∧
    (nFolds ≤ nSamples → y.dedup.length < 2 →
      trainAll cvScore npStd nFolds nSamples y =
        .error (.classCountError y.dedup.length)) := by
  constructor
  · intro h
    simp [trainAll, h]
  · intro h1 h2
    simp [trainAll, Nat.not_lt.mpr h1, h2]

/-- Witness for C5: three samples with five requested folds give the
sizing error; four one-class samples with two requested folds give the
class-count error. -/
theorem claim_C5_witness :
    trainAll (fun _ _ => []) (fun _ => 0) 5 3 [0, 1, 0] =
        .error (.sizingError 5 3) ∧
    trainAll (fun _ _ => []) (fun _ => 0) 2 4 [1, 1, 1, 1] =
        .error (.classCountError 1) := by
  constructor
  · exact (claim_C5 _ _ 5 3 [0, 1, 0]).1 (by norm_num)
  · have h := (claim_C5 (fun _ _ => []) (fun _ => 0) 2 4 [1, 1, 1, 1]).2
      (by norm_num) (by decide)
    simpa using h

/-- Claim C6: under the training preconditions (at least two distinct
labels), the effective fold count of the Trainer equals the requested
fold count adapted downward to the smallest class count and floored at
2, and the Evaluator applies exactly the same fold-adaptation rule. -/
theorem claim_C6 (nFolds : ℕ) (y : List ℕ) (_h : 2 ≤ y.dedup.length) :
    trainerEffectiveFolds nFolds y = max 2 (min nFolds (minClassCount y)) ∧
    evaluatorEffectiveFolds nFolds y = trainerEffectiveFolds nFolds y := by
  constructor
  · show (if min nFolds (minClassCount y) < 2 then 2 else min nFolds (minClassCount y)) = _
    split <;> omega
  · rfl

/-- Witness for C6 on a two-class label vector. -/
theorem claim_C6_witness :
    trainerEffectiveFolds 5 [0, 1] = max 2 (min 5 (minClassCount [0, 1])) ∧
    evaluatorEffectiveFolds 5 [0, 1] = trainerEffectiveFolds 5 [0, 1] :=
  claim_C6 5 [0, 1] (by decide)

/-- The head of a non-empty list is its `headD`. -/
theorem head?_eq_headD {α : Type} (l : List α) (d : α) (h : l ≠ []) :
    l.head? = some (l.headD d) := by
  cases l with
  | nil => exact absurd rfl h
  | cons a l => rfl

/-- Claim C7: every successful `train_all` run returns its candidate
models sorted by descending mean cross-validated accuracy, with
`best_model` equal to the first element of that list. -/
theorem claim_C7 (cvScore : ℕ → String → List ℚ) (npStd : List ℚ → ℚ)
    (nFolds nSamples : ℕ) (y : List ℕ) (res : TrainingResult)
    (h : trainAll cvScore npStd nFolds nSamples y = .ok res) :
    List.Pairwise byAccDesc res.models ∧ res.models.head? = some res.best_model := by
  by_cases h1 : nSamples < nFolds
  · simp only [trainAll, if_pos h1] at h
    exact absurd h (by simp)
  by_cases h2 : y.dedup.length < 2
  · simp only [trainAll, if_neg h1, if_pos h2] at h
    exact absurd h (by simp)
  simp only [trainAll, if_neg h1, if_neg h2, Except.ok.injEq] at h
  subst h
  constructor
  · exact List.sorted_insertionSort byAccDesc _
  · apply head?_eq_headD
    have hl := List.length_insertionSort byAccDesc
      (pipelineNames.map (fun pname =>
        { name := pname
          cv_accuracy := pyRound 4 (npMean (cvScore (trainerEffectiveFolds nFolds y) pname))
          cv_std := pyRound 4 (npStd (cvScore (trainerEffectiveFolds nFolds y) pname))
          cv_scores := (cvScore (trainerEffectiveFolds nFolds y) pname).map (pyRound 4)
          : TrainedModel }))
    intro hnil
    dsimp only at hnil
    rw [hnil] at hl
    simp [pipelineNames] at hl

/-- Witness for C7: a concrete successful two-fold run on two samples
and two classes. -/
theorem claim_C7_witness :
    List.Pairwise byAccDesc wRes.models ∧ wRes.models.head? = some wRes.best_model :=
  claim_C7 wScore wStd 2 2 [0, 1] wRes rfl

/-- Witness for C10 at the all-zero reading. -/
theorem claim_C10_witness :
    (diagnoseAll zeroReading).agreement_pct ∈
      ([167/10, 333/10, 50, 667/10, 833/10, 100] : List ℚ) ∧
    (diagnoseAll zeroReading).agreement_pct ≠ 0 :=
  claim_C10 zeroReading

/-- The IEEE classifier always reports its documented name. -/
theorem ieee_name (r : GasReading) :
    (ieeeDiagnose r).method_name = "IEEE C57.104-2019" := rfl

/-- The IEC classifier always reports its documented name. -/
theorem iec_name (r : GasReading) :
    (iecDiagnose r).method_name = "IEC 60599:2022" := rfl

/-- The Rogers classifier always reports its documented name. -/
theorem rogers_name (r : GasReading) :
    (rogersDiagnose r).method_name = "Rogers" := rfl

/-- The Dornenburg classifier always reports its documented name. -/
theorem dornenburg_name (r : GasReading) :
    (dornenburgDiagnose r).method_name = "Dornenburg" := by
  unfold dornenburgDiagnose
  split <;> rfl

/-- The Duval Triangle classifier always reports its documented name. -/
theorem triangle_name (r : GasReading) :
    (duvalTriangleDiagnose r).method_name = "Triangulo de Duval 1" := by
  simp only [duvalTriangleDiagnose]
  split <;> rfl

/-- The Duval Pentagon classifier always reports its documented name. -/
theorem pentagon_name (r : GasReading) :
    (duvalPentagonDiagnose r).method_name = "Pentagono de Duval 1" := by
  simp only [duvalPentagonDiagnose]
  split <;> rfl

/-- Claim C9: `diagnose_single` returns the result of the classifier
whose method name matches the requested name case-insensitively, and
returns `none` — not an error — when no classifier has that name. -/
theorem claim_C9 (r : GasReading) (name : String) :
    (pyLower name = "ieee c57.104-2019" → diagnoseSingle r name = some (ieeeDiagnose r)) ∧
    (pyLower name = "iec 60599:2022" → diagnoseSingle r name = some (iecDiagnose r)) ∧
    (pyLower name = "rogers" → diagnoseSingle r name = some (rogersDiagnose r)) ∧
    (pyLower name = "dornenburg" → diagnoseSingle r name = some (dornenburgDiagnose r)) ∧
    (pyLower name = "triangulo de duval 1" →
      diagnoseSingle r name = some (duvalTriangleDiagnose r)) ∧
    (pyLower name = "pentagono de duval 1" →
      diagnoseSingle r name = some (duvalPentagonDiagnose r)) ∧
    (pyLower name ∉ (["ieee c57.104-2019", "iec 60599:2022", "rogers", "dornenburg",
        "triangulo de duval 1", "pentagono de duval 1"] : List String) →
      diagnoseSingle r name = none) := by
  have e1 : pyLower (ieeeDiagnose r).method_name = "ieee c57.104-2019" := by
    rw [ieee_name]; decide
  have e2 : pyLower (iecDiagnose r).method_name = "iec 60599:2022" := by
    rw [iec_name]; decide
  have e3 : pyLower (rogersDiagnose r).method_name = "rogers" := by
    rw [rogers_name]; decide
  have e4 : pyLower (dornenburgDiagnose r).method_name = "dornenburg" := by
    rw [dornenburg_name]; decide
  have e5 : pyLower (duvalTriangleDiagnose r).method_name = "triangulo de duval 1" := by
    rw [triangle_name]; decide
  have e6 : pyLower (duvalPentagonDiagnose r).method_name = "pentagono de duval 1" := by
    rw [pentagon_name]; decide
  refine ⟨?_, ?_, ?_, ?_, ?_, ?_, ?_⟩ <;> intro h <;>
    unfold diagnoseSingle methodList <;>
    simp only [List.map_cons, List.map_nil]
  · rw [List.find?_cons_of_pos _ (by rw [e1, h]; decide)]
  · rw [List.find?_cons_of_neg _ (by rw [e1, h]; decide),
      List.find?_cons_of_pos _ (by rw [e2, h]; decide)]
  · rw [List.find?_cons_of_neg _ (by rw [e1, h]; decide),
      List.find?_cons_of_neg _ (by rw [e2, h]; decide),
      List.find?_cons_of_pos _ (by rw [e3, h]; decide)]
  · rw [List.find?_cons_of_neg _ (by rw [e1, h]; decide),
      List.find?_cons_of_neg _ (by rw [e2, h]; decide),
      List.find?_cons_of_neg _ (by rw [e3, h]; decide),
      List.find?_cons_of_pos _ (by rw [e4, h]; decide)]
  · rw [List.find?_cons_of_neg _ (by rw [e1, h]; decide),
      List.find?_cons_of_neg _ (by rw [e2, h]; decide),
      List.find?_cons_of_neg _ (by rw [e3, h]; decide),
      List.find?_cons_of_neg _ (by rw [e4, h]; decide),
      List.find?_cons_of_pos _ (by rw [e5, h]; decide)]
  · rw [List.find?_cons_of_neg _ (by rw [e1, h]; decide),
      List.find?_cons_of_neg _ (by rw [e2, h]; decide),
      List.find?_cons_of_neg _ (by rw [e3, h]; decide),
      List.find?_cons_of_neg _ (by rw [e4, h]; decide),
      List.find?_cons_of_neg _ (by rw [e5, h]; decide),
      List.find?_cons_of_pos _ (by rw [e6, h]; decide)]
  · have mk : ∀ s : String, s ∈ (["ieee c57.104-2019", "iec 60599:2022", "rogers",
        "dornenburg", "triangulo de duval 1", "pentagono de duval 1"] : List String) →
        ¬((s == pyLower name) = true) := by
      intro s hs hb
      exact h (beq_iff_eq.mp hb ▸ hs)
    rw [List.find?_cons_of_neg _ (by rw [e1]; exact mk _ (by simp)),
      List.find?_cons_of_neg _ (by rw [e2]; exact mk _ (by simp)),
      List.find?_cons_of_neg _ (by rw [e3]; exact mk _ (by simp)),
      List.find?_cons_of_neg _ (by rw [e4]; exact mk _ (by simp)),
      List.find?_cons_of_neg _ (by rw [e5]; exact mk _ (by simp)),
      List.find?_cons_of_neg _ (by rw [e6]; exact mk _ (by simp))]
    rfl

/-- Witness for C9: the uppercase name ROGERS retrieves the Rogers
result at the all-zero reading, and an unknown name yields no result. -/
theorem claim_C9_witness :
    diagnoseSingle zeroReading "ROGERS" = some (rogersDiagnose zeroReading) ∧
    diagnoseSingle zeroReading "Duval" = none :=
  ⟨(claim_C9 zeroReading "ROGERS").2.2.1 (by decide),
   (claim_C9 zeroReading "Duval").2.2.2.2.2.2 (by decide)⟩

end Dga
